import Mathlib

/-!
Verification of the meraki-info CLI's core API pipeline: the retrying HTTP
transport, the exponential-backoff policy, the organization/network identifier
resolver, the per-network route aggregation, the per-network license
attribution, the consolidated cross-network output, and the device
down/alerting status classification.

Pure logic is translated directly from `internal/meraki/client.go` and
`main.go`.  HTTP calls and JSON decoding are abstracted by environment
records: each `...Resp` field models the combined outcome of one
`makeRequest` call plus its JSON decode (an `Except.error` covers both a
transport/HTTP failure and a decode failure, which the Go code treats the
same way at every call site modelled here).

The retry-enabled transport (`RetryConfig`, `calculateBackoff`,
`isRetryableError`, and the retry loop of `makeRequest`) is declared and
exercised by `internal/meraki/client_test.go` and documented in
`RETRY_LOGIC.md`, but its implementation file is not part of the source
tree; those definitions are therefore modelled from the specification and
constrained by the repository's own tests, as noted on each of them.
-/

namespace MerakiInfo

/-! ## Retry policy and transport -/

/-- Modelled from the spec: the `RetryConfig` struct of the retry-enabled
client (absent from the source tree; declared by `client_test.go` and
`RETRY_LOGIC.md`).  Intervals are in seconds, as exact rationals; Go stores
`time.Duration` nanoseconds and a `float64` multiplier, but every
configuration exercised by the repository (multipliers 2.0, 2.5, 3.0 and
integral intervals) is computed exactly, so `ℚ` is a faithful model. -/
structure RetryConfig where
  maxRetries : Nat
  initialInterval : ℚ
  maxInterval : ℚ
  multiplier : ℚ
deriving DecidableEq

/-- The default retry configuration asserted by `TestRetryConfig` and
`RETRY_LOGIC.md`: 3 retries, 1s initial, 30s cap, multiplier 2.0. -/
def defaultRetryConfig : RetryConfig :=
  { maxRetries := 3, initialInterval := 1, maxInterval := 30, multiplier := 2 }

/-- Modelled from the spec: the iterative core of `calculateBackoff` (absent
from the source tree).  Starting from the current backoff value, multiply by
the configured multiplier once per remaining step, returning the cap as soon
as it is exceeded.  This realizes the `RETRY_LOGIC.md` formula
`backoff = initial * multiplier ^ (attempt - 1)` capped at `MaxInterval`,
and agrees with every value asserted by `TestCalculateBackoff`. -/
def backoffStep (cfg : RetryConfig) : Nat → ℚ → ℚ
  | 0, b => b
  | k + 1, b =>
    let b2 := b * cfg.multiplier
    if cfg.maxInterval < b2 then cfg.maxInterval else backoffStep cfg k b2

/-- Modelled from the spec: `calculateBackoff` of the retry-enabled client
(absent from the source tree).  `TestCalculateBackoff` pins
`calculateBackoff 0 = calculateBackoff 1 = InitialInterval` and
`calculateBackoff 2 = InitialInterval * Multiplier` under the defaults, and
the cap at `MaxInterval` for large attempts. -/
def calculateBackoff (cfg : RetryConfig) (attempt : Nat) : ℚ :=
  backoffStep cfg (attempt - 1) cfg.initialInterval

/-- The backoff formula exactly as the specification document words it:
`calculateBackoff(n) = min(InitialInterval * Multiplier ^ n, MaxInterval)`.
Stated only to be compared against `calculateBackoff`. -/
def specCalculateBackoff (cfg : RetryConfig) (attempt : Nat) : ℚ :=
  min (cfg.initialInterval * cfg.multiplier ^ attempt) cfg.maxInterval

/-- Outcome of one HTTP attempt: a transport-level failure (no response at
all), or a response with an HTTP status code. -/
inductive Outcome where
  | transportFailure
  | httpStatus (code : Nat)
deriving DecidableEq

/-- Success test of `makeRequest` in `client.go`:
`resp.StatusCode < 200 || resp.StatusCode >= 300` is a failure. -/
def isSuccessStatus (code : Nat) : Bool :=
  200 ≤ code && code < 300

/-- Modelled from the spec: `isRetryableError(err, statusCode)` of the
retry-enabled client (absent from the source tree; its full truth table is
asserted by `TestIsRetryableError`).  A transport error is always
retryable; otherwise only statuses 429, 500, 502, 503, 504 are. -/
def isRetryableError (hasTransportErr : Bool) (statusCode : Nat) : Bool :=
  hasTransportErr || statusCode == 429 || statusCode == 500 || statusCode == 502 ||
    statusCode == 503 || statusCode == 504

/-- Whether an attempt outcome is a success. -/
def outcomeSuccess : Outcome → Bool
  | .transportFailure => false
  | .httpStatus code => isSuccessStatus code

/-- Whether an attempt outcome is retryable, via `isRetryableError`. -/
def outcomeRetryable : Outcome → Bool
  | .transportFailure => isRetryableError true 0
  | .httpStatus code => isRetryableError false code

/-- Result of `makeRequest`: a successful response, an immediate error for a
non-retryable failure (carrying the status code, per the message
`API request failed with status: %d`), or a terminal error after retry
exhaustion (carrying the last outcome and the total attempt count, per the
messages `... after %d attempts` in `RETRY_LOGIC.md`).  Every constructor
records the number of attempts that were made. -/
inductive ReqResult where
  | success (code attempts : Nat)
  | fatalStatus (code attempts : Nat)
  | exhausted (last : Outcome) (attempts : Nat)
deriving DecidableEq

/-- Result of a single attempt that is not followed by a retry. -/
def oneAttemptResult (o : Outcome) (attempt : Nat) : ReqResult :=
  match o with
  | .httpStatus code =>
    if isSuccessStatus code then .success code attempt else .fatalStatus code attempt
  | .transportFailure => .fatalStatus 0 attempt

/-- Modelled from the spec: the retry loop of `makeRequest` (absent from the
source tree; exercised by `TestRetryLogic`).  `server i` is the outcome of
the i-th attempt (1-based).  Arguments: current attempt number and number of
retries still allowed.  On a retryable failure with retries remaining, the
computed backoff is recorded as a sleep and the next attempt is made;
otherwise the loop terminates as `oneAttemptResult` or `exhausted`. -/
def makeRequestAux (cfg : RetryConfig) (server : Nat → Outcome) :
    (attempt retriesLeft : Nat) → ReqResult × List ℚ
  | attempt, 0 =>
    let o := server attempt
    if outcomeSuccess o then (oneAttemptResult o attempt, [])
    else if outcomeRetryable o then (.exhausted o attempt, [])
    else (oneAttemptResult o attempt, [])
  | attempt, k + 1 =>
    let o := server attempt
    if outcomeSuccess o then (oneAttemptResult o attempt, [])
    else if outcomeRetryable o then
      let r := makeRequestAux cfg server (attempt + 1) k
      (r.1, calculateBackoff cfg attempt :: r.2)
    else (oneAttemptResult o attempt, [])

/-- Modelled from the spec: `makeRequest` of the retry-enabled client, as a
function of the retry configuration and the per-attempt server behavior.
Returns the final result together with the list of backoff sleeps performed
between attempts. -/
def makeRequest (cfg : RetryConfig) (server : Nat → Outcome) : ReqResult × List ℚ :=
  makeRequestAux cfg server 1 cfg.maxRetries

/-! ## Identifier resolver -/

/-- A Meraki network, from the `Network` struct in `client.go`. -/
structure Network where
  id : String
  name : String
  productTypes : List String := []
  timeZone : String := ""
  tags : List String := []
deriving DecidableEq

/-- A Meraki organization, from the `Organization` struct in `client.go`
(the nested `api`, `licensing` and `cloud` sub-structs are flattened; only
`id` and `name` are read by any logic modelled here). -/
structure Organization where
  id : String
  name : String
  url : String := ""
  apiEnabled : Bool := false
  licensingModel : String := ""
  regionName : String := ""
deriving DecidableEq

/-- Go's `strings.ToLower`, modelled character-wise over the string's
character list.  (Lean's own `String.toLower` is defined by well-founded
recursion, which blocks kernel evaluation of concrete instances; this
structural version computes the same ASCII folding.) -/
def strToLower (s : String) : String :=
  ⟨s.data.map Char.toLower⟩

/-- The `"%s (ID: %s)"` candidate formatting used by both resolvers when
building not-found and ambiguity messages. -/
def describeCandidate (name id : String) : String :=
  name ++ " (ID: " ++ id ++ ")"

/-- The dynamic content of a resolver error message.  ResolveNetworkID's
ambiguity message enumerates the bare matched network IDs; the organization
one enumerates `"name (ID: id)"` pairs; both not-found messages enumerate
every available candidate (the Go code merely words the message differently
when that list is empty). -/
inductive ResolveErr where
  | fetchFailed (msg : String)
  | networkNotFound (identifier organizationID : String) (available : List String)
  | networkAmbiguous (identifier organizationID : String) (matchedIDs : List String)
  | orgNotFound (identifier : String) (available : List String)
  | orgAmbiguous (identifier : String) (duplicates : List String)
deriving DecidableEq

/-- `ResolveNetworkID` from `client.go`, with the
`getOrganizationNetworks` HTTP call abstracted as `networksResp`.  Empty
identifiers short-circuit before the fetch; an exact ID match wins before
any case-insensitive name matching is attempted. -/
def ResolveNetworkID (networksResp : Except String (List Network))
    (organizationID networkIdentifier : String) : Except ResolveErr String :=
  if networkIdentifier = "" then .ok ""
  else
    match networksResp with
    | .error e => .error (.fetchFailed e)
    | .ok networks =>
      if networks.any fun network => network.id == networkIdentifier then
        .ok networkIdentifier
      else
        let lowerIdentifier := strToLower networkIdentifier
        let matchedNetworks := networks.filter fun network =>
          strToLower network.name == lowerIdentifier
        match matchedNetworks with
        | [] =>
          .error (.networkNotFound networkIdentifier organizationID
            (networks.map fun network => describeCandidate network.name network.id))
        | [network] => .ok network.id
        | _ =>
          .error (.networkAmbiguous networkIdentifier organizationID
            (matchedNetworks.map fun network => network.id))

/-- `ResolveOrganizationID` from `client.go`, with the `GetOrganizations`
HTTP call abstracted as `orgsResp`. -/
def ResolveOrganizationID (orgsResp : Except String (List Organization))
    (organizationIdentifier : String) : Except ResolveErr String :=
  if organizationIdentifier = "" then .ok ""
  else
    match orgsResp with
    | .error e => .error (.fetchFailed e)
    | .ok organizations =>
      if organizations.any fun org => org.id == organizationIdentifier then
        .ok organizationIdentifier
      else
        let lowerIdentifier := strToLower organizationIdentifier
        let matchedOrganizations := organizations.filter fun org =>
          strToLower org.name == lowerIdentifier
        match matchedOrganizations with
        | [] =>
          .error (.orgNotFound organizationIdentifier
            (organizations.map fun org => describeCandidate org.name org.id))
        | [org] => .ok org.id
        | _ =>
          .error (.orgAmbiguous organizationIdentifier
            (matchedOrganizations.map fun org => describeCandidate org.name org.id))

/-! ## Routes -/

/-- A route record, from the `Route` struct in `client.go`.  The
`fixedIpAssignments` field is an untyped blob (`interface{}`) in Go that the
core never interprets; it is modelled as an opaque optional payload. -/
structure Route where
  id : String := ""
  name : String := ""
  subnet : String := ""
  gatewayIP : String := ""
  gatewayVlan : Int := 0
  enabled : Bool := false
  fixedIP : Option String := none
deriving DecidableEq

/-- One entry of the site-to-site VPN configuration's `subnets` array. -/
structure VpnSubnet where
  localSubnet : String := ""
  useVpn : Bool := false
deriving DecidableEq

/-- The decoded site-to-site VPN configuration, from the anonymous decode
struct in `getNetworkVPNRoutes`. -/
structure VpnConfig where
  mode : String := ""
  subnets : List VpnSubnet := []
deriving DecidableEq

/-- A decoded appliance VLAN, from the anonymous decode struct in
`getNetworkVLANRoutes`. -/
structure Vlan where
  id : Int
  name : String := ""
  applianceIP : String := ""
  subnet : String := ""
  interfaceID : String := ""
  dhcpHandling : String := ""
deriving DecidableEq

/-- A decoded switch (or switch-stack) layer-3 routing interface, from the
anonymous decode structs in `getNetworkSwitchInterfaces` and
`getSwitchStackRoutingInterfaces`. -/
structure SwitchIface where
  interfaceID : String := ""
  name : String := ""
  subnet : String := ""
  interfaceIP : String := ""
  vlan : Int := 0
deriving DecidableEq

/-- A switch stack, from the `SwitchStack` struct in `client.go`. -/
structure SwitchStack where
  id : String
  name : String := ""
deriving DecidableEq

/-- A decoded switch-stack static route, from the anonymous decode struct in
`getSwitchStackStaticRoutes`. -/
structure StackStaticRoute where
  staticRouteID : String := ""
  name : String := ""
  subnet : String := ""
  nextHopIP : String := ""
  advertiseViaOspfEnabled : Bool := false
  preferOverOspfRoutesEnabled : Bool := false
deriving DecidableEq

/-- The decoded switch-stack DHCP configuration from
`getSwitchStackDHCPRoutes`; only the relay server list is ever read (the
decoded `dhcpOptions` and `reservedIpRanges` fields are never used). -/
structure DhcpConfig where
  dhcpRelayServers : List String := []
deriving DecidableEq

/-- The remote API's answers for one network's route-related endpoints.
Each field is the combined outcome of the `makeRequest` call and the JSON
decode for that endpoint (the Go code treats a decode failure the same way
as a request failure at each of these call sites that matters here, so both
collapse into `Except.error`). -/
structure NetworkEnv where
  staticRoutesResp : Except String (List Route)
  vpnResp : Except String VpnConfig
  vlansResp : Except String (List Vlan)
  switchIfacesResp : Except String (List SwitchIface)
  switchStaticResp : Except String (List Route)
  stacksResp : Except String (List SwitchStack)
  stackIfacesResp : String → Except String (List SwitchIface)
  stackStaticResp : String → Except String (List StackStaticRoute)
  stackDhcpResp : String → Except String DhcpConfig

/-- `getNetworkStaticRoutes` from `client.go`: fetch appliance static
routes, propagating failure, and give unnamed routes the synthetic name
`"Static Route %d"` (1-based). -/
def getNetworkStaticRoutes (env : NetworkEnv) : Except String (List Route) :=
  match env.staticRoutesResp with
  | .error e => .error e
  | .ok routes =>
    .ok <| routes.mapIdx fun i r =>
      if r.name = "" then { r with name := "Static Route " ++ toString (i + 1) } else r

/-- `getNetworkVPNRoutes` from `client.go`: any request or decode failure
yields an empty contribution with no error; otherwise every subnet with
`useVpn` becomes an enabled route named after its index in the full
subnet list. -/
def getNetworkVPNRoutes (env : NetworkEnv) : Except String (List Route) :=
  match env.vpnResp with
  | .error _ => .ok []
  | .ok vpnConfig =>
    .ok <| (vpnConfig.subnets.mapIdx fun i s =>
      if s.useVpn then
        [{ id := "vpn-" ++ toString i, name := "VPN Route " ++ toString (i + 1),
           subnet := s.localSubnet, enabled := true }]
      else []).flatten

/-- `getNetworkVLANRoutes` from `client.go`: failures yield an empty
contribution; VLANs with an empty subnet are dropped. -/
def getNetworkVLANRoutes (env : NetworkEnv) : Except String (List Route) :=
  match env.vlansResp with
  | .error _ => .ok []
  | .ok vlans =>
    .ok <| (vlans.filter fun v => v.subnet != "").map fun v =>
      { id := "vlan-" ++ toString v.id, name := "VLAN " ++ toString v.id ++ " - " ++ v.name,
        subnet := v.subnet, gatewayIP := v.applianceIP, enabled := true }

/-- `getNetworkSwitchInterfaces` from `client.go`: failures yield an empty
contribution; interfaces with an empty subnet are dropped. -/
def getNetworkSwitchInterfaces (env : NetworkEnv) : Except String (List Route) :=
  match env.switchIfacesResp with
  | .error _ => .ok []
  | .ok interfaces =>
    .ok <| (interfaces.filter fun i => i.subnet != "").map fun i =>
      { id := "switch-iface-" ++ i.interfaceID, name := "Switch Interface - " ++ i.name,
        subnet := i.subnet, gatewayIP := i.interfaceIP, enabled := true }

/-- `getNetworkSwitchStaticRoutes` from `client.go`: failures yield an empty
contribution; unnamed routes get the synthetic name
`"Switch Static Route %d"`. -/
def getNetworkSwitchStaticRoutes (env : NetworkEnv) : Except String (List Route) :=
  match env.switchStaticResp with
  | .error _ => .ok []
  | .ok routes =>
    .ok <| routes.mapIdx fun i r =>
      if r.name = "" then { r with name := "Switch Static Route " ++ toString (i + 1) } else r

/-- `getNetworkSwitchRoutes` from `client.go`: layer-3 switch interfaces
followed by switch static routes; a static-route failure is logged and
contributes nothing. -/
def getNetworkSwitchRoutes (env : NetworkEnv) : Except String (List Route) :=
  match getNetworkSwitchInterfaces env with
  | .error _ => .ok []
  | .ok switchInterfaces =>
    let switchStaticRoutes :=
      match getNetworkSwitchStaticRoutes env with
      | .error _ => []
      | .ok rs => rs
    .ok (switchInterfaces ++ switchStaticRoutes)

/-- `getNetworkSwitchStacks` from `client.go`: failures yield an empty
stack list with no error. -/
def getNetworkSwitchStacks (env : NetworkEnv) : Except String (List SwitchStack) :=
  match env.stacksResp with
  | .error _ => .ok []
  | .ok stackList => .ok stackList

/-- `getSwitchStackRoutingInterfaces` from `client.go`. -/
def getSwitchStackRoutingInterfaces (env : NetworkEnv) (stackID : String) :
    Except String (List Route) :=
  match env.stackIfacesResp stackID with
  | .error _ => .ok []
  | .ok interfaces =>
    .ok <| (interfaces.filter fun i => i.subnet != "").map fun i =>
      { id := "stack-" ++ stackID ++ "-iface-" ++ i.interfaceID,
        name := "Stack Interface - " ++ i.name,
        subnet := i.subnet, gatewayIP := i.interfaceIP, enabled := true }

/-- `getSwitchStackStaticRoutes` from `client.go`: `enabled` is taken from
`preferOverOspfRoutesEnabled`, and unnamed routes get the synthetic name
`"Stack %s Static Route"`. -/
def getSwitchStackStaticRoutes (env : NetworkEnv) (stackID : String) :
    Except String (List Route) :=
  match env.stackStaticResp stackID with
  | .error _ => .ok []
  | .ok apiRoutes =>
    .ok <| apiRoutes.map fun a =>
      let route : Route :=
        { id := a.staticRouteID, name := a.name, subnet := a.subnet,
          gatewayIP := a.nextHopIP, enabled := a.preferOverOspfRoutesEnabled }
      if route.name = "" then { route with name := "Stack " ++ stackID ++ " Static Route" }
      else route

/-- `getSwitchStackDHCPRoutes` from `client.go`: each non-empty DHCP relay
server becomes a `0.0.0.0/0` route gatewayed at the relay. -/
def getSwitchStackDHCPRoutes (env : NetworkEnv) (stackID : String) :
    Except String (List Route) :=
  match env.stackDhcpResp stackID with
  | .error _ => .ok []
  | .ok dhcpConfig =>
    .ok <| (dhcpConfig.dhcpRelayServers.mapIdx fun i relayServer =>
      if relayServer != "" then
        [{ id := "stack-" ++ stackID ++ "-dhcp-relay-" ++ toString i,
           name := "Stack " ++ stackID ++ " DHCP Relay " ++ toString (i + 1),
           subnet := "0.0.0.0/0", gatewayIP := relayServer, enabled := true }]
      else []).flatten

/-- `getNetworkSwitchStackRoutes` from `client.go`: for each discovered
stack, routing interfaces, then static routes, then DHCP relay routes; each
per-stack sub-fetch failure contributes nothing. -/
def getNetworkSwitchStackRoutes (env : NetworkEnv) : Except String (List Route) :=
  match getNetworkSwitchStacks env with
  | .error _ => .ok []
  | .ok stackList =>
    .ok <| (stackList.map fun stack =>
      (match getSwitchStackRoutingInterfaces env stack.id with
        | .error _ => []
        | .ok rs => rs) ++
      (match getSwitchStackStaticRoutes env stack.id with
        | .error _ => []
        | .ok rs => rs) ++
      (match getSwitchStackDHCPRoutes env stack.id with
        | .error _ => []
        | .ok rs => rs)).flatten

/-- `getNetworkRoutes` from `client.go`: concatenate the five sub-fetches in
source order, treating each failure as an empty contribution, and always
return without error. -/
def getNetworkRoutes (env : NetworkEnv) : Except String (List Route) :=
  let allRoutes : List Route := []
  let allRoutes := match getNetworkStaticRoutes env with
    | .error _ => allRoutes
    | .ok staticRoutes => allRoutes ++ staticRoutes
  let allRoutes := match getNetworkVPNRoutes env with
    | .error _ => allRoutes
    | .ok vpnRoutes => allRoutes ++ vpnRoutes
  let allRoutes := match getNetworkVLANRoutes env with
    | .error _ => allRoutes
    | .ok vlanRoutes => allRoutes ++ vlanRoutes
  let allRoutes := match getNetworkSwitchRoutes env with
    | .error _ => allRoutes
    | .ok switchRoutes => allRoutes ++ switchRoutes
  let allRoutes := match getNetworkSwitchStackRoutes env with
    | .error _ => allRoutes
    | .ok switchStackRoutes => allRoutes ++ switchStackRoutes
  .ok allRoutes

/-- The routes of one network, from the `NetworkRoutes` struct in
`client.go`. -/
structure NetworkRoutes where
  network : Network
  routes : List Route
deriving DecidableEq

/-- The remote API's answers for one organization: its network listing and,
per network ID, the route endpoints of that network. -/
structure OrgEnv where
  networksResp : Except String (List Network)
  netEnv : String → NetworkEnv

/-- `GetAllNetworkRoutes` from `client.go`: list the organization's
networks (failure is fatal), then fetch each network's routes, recording a
network whose route fetch failed with an empty route list. -/
def GetAllNetworkRoutes (oe : OrgEnv) : Except String (List NetworkRoutes) :=
  match oe.networksResp with
  | .error e => .error e
  | .ok networks =>
    .ok <| networks.map fun network =>
      match getNetworkRoutes (oe.netEnv network.id) with
      | .error _ => { network := network, routes := [] }
      | .ok networkRoutes => { network := network, routes := networkRoutes }

/-- The successful payload of a sub-fetch, or `[]` when it failed — the
shape in which `getNetworkRoutes` consumes every sub-fetch. -/
def okOrEmpty (r : Except String (List Route)) : List Route :=
  match r with
  | .error _ => []
  | .ok rs => rs

/-- The six-source concatenation that `getNetworkRoutes` produces: appliance
static routes, VPN subnets, VLAN interfaces, switch layer-3 interfaces,
switch static routes, switch-stack routes. -/
def networkRoutesList (env : NetworkEnv) : List Route :=
  okOrEmpty (getNetworkStaticRoutes env) ++ okOrEmpty (getNetworkVPNRoutes env) ++
    okOrEmpty (getNetworkVLANRoutes env) ++ okOrEmpty (getNetworkSwitchInterfaces env) ++
    okOrEmpty (getNetworkSwitchStaticRoutes env) ++ okOrEmpty (getNetworkSwitchStackRoutes env)

/-! ## Licenses -/

/-- A Meraki license, from the `License` struct in `client.go`. -/
structure License where
  id : String := ""
  organizationID : String := ""
  deviceSerial : String := ""
  networkID : String := ""
  state : String := ""
  edition : String := ""
  mode : String := ""
  expirationDate : String := ""
  licenseType : String := ""
  licenseKey : String := ""
  orderNumber : String := ""
  permanentlyQueued : Bool := false
  durationInDays : Int := 0
deriving DecidableEq

/-- The licenses of one network, from the `NetworkLicenses` struct in
`client.go`. -/
structure NetworkLicenses where
  network : Network
  licenses : List License
deriving DecidableEq

/-- `GetAllNetworkLicenses` from `client.go`: a failing network listing is
fatal; a failing organization-license fetch degrades to an empty license
list; each network is then paired with the organization licenses whose
`networkId` is that network's ID or empty. -/
def GetAllNetworkLicenses (networksResp : Except String (List Network))
    (orgLicensesResp : Except String (List License)) : Except String (List NetworkLicenses) :=
  match networksResp with
  | .error e => .error e
  | .ok networks =>
    let orgLicenses :=
      match orgLicensesResp with
      | .error _ => ([] : List License)
      | .ok licenses => licenses
    .ok <| networks.map fun network =>
      { network := network
        licenses := orgLicenses.filter fun license =>
          license.networkID == network.id || license.networkID == "" }

/-! ## Devices and status classification -/

/-- A Meraki device, from the `Device` struct in `client.go` (the `lat` and
`lng` floating-point coordinates and the `beaconIdParams` sub-struct are
omitted: they are never read by any logic modelled here). -/
structure Device where
  serial : String := ""
  name : String := ""
  model : String := ""
  networkID : String := ""
  mac : String := ""
  status : String := ""
  lastReportedAt : String := ""
  productType : String := ""
  tags : List String := []
  address : String := ""
  notes : String := ""
deriving DecidableEq

/-- The fixed down-status set of `isDeviceDown` in `client.go`. -/
def downStatuses : List String :=
  ["offline", "alerting", "dormant", "down", "unreachable", "disconnected"]

/-- `isDeviceDown` from `client.go`: lowercase the status and test
membership in the fixed down-status set. -/
def isDeviceDown (status : String) : Bool :=
  downStatuses.any fun downStatus => strToLower status == downStatus

/-- The fixed alerting-status set of `isDeviceAlerting` in `client.go`. -/
def alertingStatuses : List String :=
  ["alerting"]

/-- `isDeviceAlerting` from `client.go`: lowercase the status and test
membership in the fixed alerting-status set. -/
def isDeviceAlerting (status : String) : Bool :=
  alertingStatuses.any fun alertingStatus => strToLower status == alertingStatus

/-! ## Consolidated (`--all`) aggregation -/

/-- `RouteWithNetwork` from `client.go`: a route plus the network ID,
network name and a single organization string (Go embeds `Route`; the
embedding is modelled as the `route` field). -/
structure RouteWithNetwork where
  route : Route
  networkID : String
  networkName : String
  organization : String
deriving DecidableEq

/-- `DeviceWithNetwork` from `client.go`: a device plus the network name
and a single organization string — it has no network-ID annotation field. -/
structure DeviceWithNetwork where
  device : Device
  networkName : String
  organization : String
deriving DecidableEq

/-- `LicenseWithNetwork` from `client.go`: a license plus a single
organization string — it has no network annotation fields at all. -/
structure LicenseWithNetwork where
  license : License
  organization : String
deriving DecidableEq

/-- The remote API as seen by the consolidated (`--all`) aggregation in
`main.go`: the organization listing, each organization's network listing and
route endpoints, each organization's license fetch, and
`GetAlertingDevices org.ID network.ID` abstracted per organization and
network. -/
structure ApiEnv where
  orgsResp : Except String (List Organization)
  orgEnv : String → OrgEnv
  licensesResp : String → Except String (List License)
  alertingResp : String → String → Except String (List Device)

/-- The all-organizations branch of `infoAllNetworkRoutesConsolidated` in
`main.go` (taken when `cfg.Organization` is empty): list organizations
(failure is fatal), fetch each organization's per-network routes (failure
skips the organization), and annotate every route with the network ID,
network name and the organization's name. -/
def infoAllNetworkRoutesConsolidated (env : ApiEnv) :
    Except String (List RouteWithNetwork) :=
  match env.orgsResp with
  | .error e => .error e
  | .ok organizations =>
    .ok <| (organizations.map fun org =>
      match GetAllNetworkRoutes (env.orgEnv org.id) with
      | .error _ => []
      | .ok networkRoutes =>
        (networkRoutes.map fun nr =>
          nr.routes.map fun route =>
            { route := route, networkID := nr.network.id, networkName := nr.network.name,
              organization := org.name }).flatten).flatten

/-- The single-organization branch of `infoAllNetworkRoutesConsolidated` in
`main.go` (taken when `cfg.Organization` is non-empty): the organization
annotation is `cfg.Organization` itself — the caller's resolved
organization token, not a name looked up from the listing. -/
def infoSingleOrgRoutesConsolidated (env : ApiEnv) (orgToken : String) :
    Except String (List RouteWithNetwork) :=
  match GetAllNetworkRoutes (env.orgEnv orgToken) with
  | .error e => .error e
  | .ok networkRoutes =>
    .ok <| (networkRoutes.map fun nr =>
      nr.routes.map fun route =>
        { route := route, networkID := nr.network.id, networkName := nr.network.name,
          organization := orgToken }).flatten

/-- `infoAllNetworkLicensesConsolidated` from `main.go`: list organizations
(failure is fatal), fetch each organization's licenses (failure skips the
organization), and annotate every license with the organization's name
only. -/
def infoAllNetworkLicensesConsolidated (env : ApiEnv) :
    Except String (List LicenseWithNetwork) :=
  match env.orgsResp with
  | .error e => .error e
  | .ok organizations =>
    .ok <| (organizations.map fun org =>
      match env.licensesResp org.id with
      | .error _ => []
      | .ok licenses =>
        licenses.map fun license =>
          { license := license, organization := org.name }).flatten

/-- `infoAllNetworkAlertingDevicesConsolidated` from `main.go`: list
organizations (failure is fatal), list each organization's networks
(failure skips the organization), fetch each network's alerting devices
(failure skips the network), and annotate every device with the network
name and the organization name. -/
def infoAllNetworkAlertingDevicesConsolidated (env : ApiEnv) :
    Except String (List DeviceWithNetwork) :=
  match env.orgsResp with
  | .error e => .error e
  | .ok organizations =>
    .ok <| (organizations.map fun org =>
      match (env.orgEnv org.id).networksResp with
      | .error _ => []
      | .ok networks =>
        (networks.map fun network =>
          match env.alertingResp org.id network.id with
          | .error _ => []
          | .ok alertingDevices =>
            alertingDevices.map fun device =>
              { device := device, networkName := network.name,
                organization := org.name }).flatten).flatten

/-! ## Theorems: retry policy and transport -/

/-- A retryable outcome is never a success: the retryable statuses 429,
500, 502, 503, 504 all lie outside [200,300), and a transport failure has
no status at all. -/
theorem outcomeRetryable_not_success {o : Outcome} (h : outcomeRetryable o = true) :
    outcomeSuccess o = false := by
  cases o with
  | transportFailure => rfl
  | httpStatus code =>
    simp only [outcomeRetryable, isRetryableError, Bool.false_or, Bool.or_eq_true,
      beq_iff_eq] at h
    rcases h with ((((h | h) | h) | h) | h) <;> subst h <;> rfl

/-- Behavior of the retry loop against a server whose every attempt fails
retryably: all retries are consumed, one backoff sleep per retry. -/
theorem makeRequestAux_always_retryable (cfg : RetryConfig) (server : Nat → Outcome)
    (h : ∀ i, outcomeRetryable (server i) = true) :
    ∀ (k attempt : Nat), makeRequestAux cfg server attempt k =
      (.exhausted (server (attempt + k)) (attempt + k),
        (List.range k).map fun i => calculateBackoff cfg (attempt + i)) := by
  intro k
  induction k with
  | zero =>
    intro attempt
    simp [makeRequestAux, outcomeRetryable_not_success (h attempt), h attempt]
  | succ k ih =>
    intro attempt
    have hfun : ∀ i, calculateBackoff cfg (attempt + 1 + i) = calculateBackoff cfg (attempt + (i + 1)) := by
      intro i
      congr 1
      omega
    have hadd : attempt + 1 + k = attempt + (k + 1) := by omega
    simp only [makeRequestAux, outcomeRetryable_not_success (h attempt), h attempt,
      Bool.false_eq_true, if_false, if_true, ih (attempt + 1), hadd]
    simp [List.range_succ_eq_map, List.map_map, Function.comp, hfun]

/-- C1: when every attempt fails retryably, `makeRequest` retries with a
backoff sleep before each retry, making `MaxRetries` additional attempts
(default 3, i.e. 4 total) and ending in a terminal error that reports the
total attempt count `MaxRetries + 1`. -/
theorem makeRequest_retry_exhaustion (cfg : RetryConfig) (server : Nat → Outcome)
    (h : ∀ i, outcomeRetryable (server i) = true) :
    makeRequest cfg server =
      (.exhausted (server (cfg.maxRetries + 1)) (cfg.maxRetries + 1),
        (List.range cfg.maxRetries).map fun i => calculateBackoff cfg (1 + i)) ∧
    defaultRetryConfig.maxRetries = 3 := by
  refine ⟨?_, rfl⟩
  rw [makeRequest, makeRequestAux_always_retryable cfg server h cfg.maxRetries 1,
    Nat.add_comm 1 cfg.maxRetries]

/-- Witness for C1: a server that always answers 500 under the default
configuration exhausts exactly 4 attempts. -/
theorem makeRequest_retry_exhaustion_witness :
    (∀ i : Nat, outcomeRetryable ((fun _ => Outcome.httpStatus 500) i) = true) ∧
    (makeRequest defaultRetryConfig (fun _ => Outcome.httpStatus 500) =
      (.exhausted ((fun _ => Outcome.httpStatus 500) (defaultRetryConfig.maxRetries + 1))
          (defaultRetryConfig.maxRetries + 1),
        (List.range defaultRetryConfig.maxRetries).map fun i =>
          calculateBackoff defaultRetryConfig (1 + i)) ∧
      defaultRetryConfig.maxRetries = 3) :=
  ⟨fun _ => rfl,
    makeRequest_retry_exhaustion defaultRetryConfig (fun _ => Outcome.httpStatus 500)
      (fun _ => rfl)⟩

/-- C3: a first attempt that fails with a non-retryable status makes the
call return at once, after exactly one attempt, with an error carrying that
status code and with no backoff sleeps, whatever the retry configuration
and whatever the server would have answered later. -/
theorem makeRequest_no_retry_on_fatal (cfg : RetryConfig) (server : Nat → Outcome)
    (code : Nat) (hs : server 1 = .httpStatus code)
    (hfail : isSuccessStatus code = false)
    (hnr : isRetryableError false code = false) :
    makeRequest cfg server = (.fatalStatus code 1, []) := by
  rw [makeRequest]
  cases hm : cfg.maxRetries with
  | zero =>
    simp [makeRequestAux, hs, hfail, hnr, oneAttemptResult, outcomeSuccess, outcomeRetryable]
  | succ k =>
    simp [makeRequestAux, hs, hfail, hnr, oneAttemptResult, outcomeSuccess, outcomeRetryable]

/-- Witness for C3: a 404 answer under the default configuration fails after
exactly one attempt. -/
theorem makeRequest_no_retry_on_fatal_witness :
    makeRequest defaultRetryConfig (fun _ => Outcome.httpStatus 404) =
      (.fatalStatus 404 1, []) :=
  makeRequest_no_retry_on_fatal defaultRetryConfig (fun _ => Outcome.httpStatus 404) 404
    rfl (by decide) (by decide)

/-- The iterative backoff loop computes the capped closed form
`min (b * multiplier ^ k, MaxInterval)` whenever the start value is
non-negative and below the cap and the multiplier is at least one. -/
theorem backoffStep_eq_min (cfg : RetryConfig) (hmult : 1 ≤ cfg.multiplier) :
    ∀ (k : Nat) (b : ℚ), 0 ≤ b → b ≤ cfg.maxInterval →
      backoffStep cfg k b = min (b * cfg.multiplier ^ k) cfg.maxInterval := by
  intro k
  induction k with
  | zero =>
    intro b hb hble
    simp [backoffStep, min_eq_left hble]
  | succ k ih =>
    intro b hb hble
    rw [backoffStep]
    have hbm : (0 : ℚ) ≤ b * cfg.multiplier := mul_nonneg hb (le_trans zero_le_one hmult)
    by_cases hlt : cfg.maxInterval < b * cfg.multiplier
    · rw [if_pos hlt]
      have h1 : (1 : ℚ) ≤ cfg.multiplier ^ k := one_le_pow₀ hmult
      have h2 : b * cfg.multiplier ≤ b * cfg.multiplier * cfg.multiplier ^ k :=
        le_mul_of_one_le_right hbm h1
      have h3 : cfg.maxInterval ≤ b * cfg.multiplier ^ (k + 1) := by
        have hr : b * cfg.multiplier ^ (k + 1) = b * cfg.multiplier * cfg.multiplier ^ k := by
          ring
        rw [hr]
        linarith
      rw [min_eq_right h3]
    · rw [if_neg hlt]
      push_neg at hlt
      rw [ih (b * cfg.multiplier) hbm hlt]
      have hr : b * cfg.multiplier * cfg.multiplier ^ k = b * cfg.multiplier ^ (k + 1) := by
        ring
      rw [hr]

/-- C2 counterexample: the specification's formula
`calculateBackoff(n) = min(initial * mult ^ n, max)` (with its concrete
default-policy values `calculateBackoff(1) = 2s`, `calculateBackoff(2) = 4s`)
disagrees with the behavior pinned by the repository's own
`TestCalculateBackoff`, which expects `calculateBackoff(1) = 1s` and
`calculateBackoff(2) = 2s` under the default policy. -/
theorem calculateBackoff_spec_formula_counterexample :
    calculateBackoff defaultRetryConfig 1 = 1 ∧
    specCalculateBackoff defaultRetryConfig 1 = 2 ∧
    calculateBackoff defaultRetryConfig 1 ≠ specCalculateBackoff defaultRetryConfig 1 ∧
    calculateBackoff defaultRetryConfig 2 = 2 ∧
    specCalculateBackoff defaultRetryConfig 2 = 4 := by
  refine ⟨by norm_num [calculateBackoff, backoffStep, defaultRetryConfig],
    by norm_num [specCalculateBackoff, defaultRetryConfig],
    ?_,
    by norm_num [calculateBackoff, backoffStep, defaultRetryConfig],
    by norm_num [specCalculateBackoff, defaultRetryConfig]⟩
  norm_num [calculateBackoff, backoffStep, specCalculateBackoff, defaultRetryConfig]

/-- C2 (amended): for every policy with non-negative initial interval below
the cap and multiplier at least one, `calculateBackoff(n)` equals
`min(InitialInterval * Multiplier ^ (n - 1), MaxInterval)` (natural
truncated subtraction, so attempts 0 and 1 both wait the initial interval);
under the defaults `calculateBackoff(0) = 1s`, `calculateBackoff(1) = 1s`,
`calculateBackoff(2) = 2s`, and with a 5s cap attempt 10 waits exactly the
5s cap. -/
theorem calculateBackoff_closed_form :
    (∀ (cfg : RetryConfig) (n : Nat), 0 ≤ cfg.initialInterval →
      cfg.initialInterval ≤ cfg.maxInterval → 1 ≤ cfg.multiplier →
      calculateBackoff cfg n =
        min (cfg.initialInterval * cfg.multiplier ^ (n - 1)) cfg.maxInterval) ∧
    calculateBackoff defaultRetryConfig 0 = 1 ∧
    calculateBackoff defaultRetryConfig 1 = 1 ∧
    calculateBackoff defaultRetryConfig 2 = 2 ∧
    calculateBackoff
      { maxRetries := 10, initialInterval := 1, maxInterval := 5, multiplier := 2 } 10 = 5 := by
  refine ⟨fun cfg n h0 h1 h2 => backoffStep_eq_min cfg h2 (n - 1) cfg.initialInterval h0 h1,
    by norm_num [calculateBackoff, backoffStep, defaultRetryConfig],
    by norm_num [calculateBackoff, backoffStep, defaultRetryConfig],
    by norm_num [calculateBackoff, backoffStep, defaultRetryConfig],
    by norm_num [calculateBackoff, backoffStep]⟩

/-- Witness for C2 (amended): the closed form instantiated with the default
policy at attempt 3. -/
theorem calculateBackoff_closed_form_witness :
    calculateBackoff defaultRetryConfig 3 =
      min (defaultRetryConfig.initialInterval * defaultRetryConfig.multiplier ^ (3 - 1))
        defaultRetryConfig.maxInterval :=
  calculateBackoff_closed_form.1 defaultRetryConfig 3
    (by norm_num [defaultRetryConfig]) (by norm_num [defaultRetryConfig])
    (by norm_num [defaultRetryConfig])

/-! ## Theorems: identifier resolver -/

/-- C4: a non-empty token that equals some candidate's `id` is returned
verbatim by both resolvers, before any name matching is attempted — even if
the token also case-insensitively matches another candidate's name. -/
theorem resolve_exact_id_priority :
    (∀ (networks : List Network) (orgID tok : String), tok ≠ "" →
      (networks.any fun network => network.id == tok) = true →
      ResolveNetworkID (.ok networks) orgID tok = .ok tok) ∧
    (∀ (orgs : List Organization) (tok : String), tok ≠ "" →
      (orgs.any fun org => org.id == tok) = true →
      ResolveOrganizationID (.ok orgs) tok = .ok tok) := by
  constructor
  · intro networks orgID tok hne hid
    simp [ResolveNetworkID, hne, hid]
  · intro orgs tok hne hid
    simp [ResolveOrganizationID, hne, hid]

/-- Witness for C4: the specification's own example — networks
`[{id:"A",name:"X"}, {id:"X",name:"Y"}]`, token `"X"` — resolves to `"X"`
by ID, not to `"A"` by name. -/
theorem resolve_exact_id_priority_witness :
    ResolveNetworkID
        (.ok [{ id := "A", name := "X" }, { id := "X", name := "Y" }]) "org1" "X" =
      .ok "X" :=
  resolve_exact_id_priority.1 [{ id := "A", name := "X" }, { id := "X", name := "Y" }]
    "org1" "X" (by decide) (by decide)

/-- C5 counterexample: for the empty token the resolver returns `ok ""`
before any matching happens, even when the token matches no candidate ID
and more than one candidate's name equals it case-insensitively — the
claim, which omits C4's non-emptiness qualifier, demands an ambiguity error
here. -/
theorem resolver_ambiguity_counterexample :
    (([{ id := "a", name := "" }, { id := "b", name := "" }] : List Network).any
        fun network => network.id == "") = false ∧
    2 ≤ (([{ id := "a", name := "" }, { id := "b", name := "" }] : List Network).filter
        fun network => strToLower network.name == strToLower "").length ∧
    ResolveNetworkID (.ok [{ id := "a", name := "" }, { id := "b", name := "" }]) "org1" "" =
      .ok "" :=
  ⟨by decide, by decide, rfl⟩

/-- C5 (amended): for a NON-EMPTY token matching no candidate ID, two or
more case-insensitive name matches make both resolvers fail with an
ambiguity error whose payload enumerates every colliding candidate's ID
(bare IDs for networks, `"name (ID: id)"` pairs for organizations), and the
resolution never succeeds. -/
theorem resolver_ambiguity_error :
    (∀ (networks : List Network) (orgID tok : String), tok ≠ "" →
      (networks.any fun network => network.id == tok) = false →
      2 ≤ (networks.filter fun network => strToLower network.name == strToLower tok).length →
      ResolveNetworkID (.ok networks) orgID tok =
        .error (.networkAmbiguous tok orgID
          ((networks.filter fun network => strToLower network.name == strToLower tok).map
            fun network => network.id)) ∧
      (∀ network ∈ networks.filter fun network => strToLower network.name == strToLower tok,
        network.id ∈ (networks.filter fun network =>
          strToLower network.name == strToLower tok).map fun network => network.id) ∧
      ∀ s, ResolveNetworkID (.ok networks) orgID tok ≠ .ok s) ∧
    (∀ (orgs : List Organization) (tok : String), tok ≠ "" →
      (orgs.any fun org => org.id == tok) = false →
      2 ≤ (orgs.filter fun org => strToLower org.name == strToLower tok).length →
      ResolveOrganizationID (.ok orgs) tok =
        .error (.orgAmbiguous tok
          ((orgs.filter fun org => strToLower org.name == strToLower tok).map
            fun org => describeCandidate org.name org.id)) ∧
      (∀ org ∈ orgs.filter fun org => strToLower org.name == strToLower tok,
        describeCandidate org.name org.id ∈ (orgs.filter fun org =>
          strToLower org.name == strToLower tok).map fun org => describeCandidate org.name org.id) ∧
      ∀ s, ResolveOrganizationID (.ok orgs) tok ≠ .ok s) := by
  constructor
  · intro networks orgID tok hne hid hlen
    have hres : ResolveNetworkID (.ok networks) orgID tok =
        .error (.networkAmbiguous tok orgID
          ((networks.filter fun network => strToLower network.name == strToLower tok).map
            fun network => network.id)) := by
      rcases hm : networks.filter fun network => strToLower network.name == strToLower tok
        with _ | ⟨a, _ | ⟨b, t⟩⟩
      · rw [hm] at hlen
        simp only [List.length_nil] at hlen
        omega
      · rw [hm] at hlen
        simp only [List.length_cons, List.length_nil] at hlen
        omega
      · simp [ResolveNetworkID, hne, hid, hm]
    exact ⟨hres, fun network hmem => List.mem_map_of_mem _ hmem, fun s => by rw [hres]; simp⟩
  · intro orgs tok hne hid hlen
    have hres : ResolveOrganizationID (.ok orgs) tok =
        .error (.orgAmbiguous tok
          ((orgs.filter fun org => strToLower org.name == strToLower tok).map
            fun org => describeCandidate org.name org.id)) := by
      rcases hm : orgs.filter fun org => strToLower org.name == strToLower tok
        with _ | ⟨a, _ | ⟨b, t⟩⟩
      · rw [hm] at hlen
        simp only [List.length_nil] at hlen
        omega
      · rw [hm] at hlen
        simp only [List.length_cons, List.length_nil] at hlen
        omega
      · simp [ResolveOrganizationID, hne, hid, hm]
    exact ⟨hres, fun org hmem => List.mem_map_of_mem _ hmem, fun s => by rw [hres]; simp⟩

/-- The two same-named networks used to witness the amended C5. -/
def ambNetworksExample : List Network :=
  [{ id := "N1", name := "Main Office" }, { id := "N2", name := "main office" }]

/-- Witness for C5 (amended): two networks both named "Main Office" (up to
case) make the token "MAIN OFFICE" fail with an ambiguity error listing
both IDs. -/
theorem resolver_ambiguity_error_witness :
    ResolveNetworkID (.ok ambNetworksExample) "org1" "MAIN OFFICE" =
      .error (.networkAmbiguous "MAIN OFFICE" "org1"
        ((ambNetworksExample.filter fun network =>
          strToLower network.name == strToLower "MAIN OFFICE").map fun network => network.id)) ∧
    ((ambNetworksExample.filter fun network =>
      strToLower network.name == strToLower "MAIN OFFICE").map fun network => network.id) =
      ["N1", "N2"] :=
  ⟨(resolver_ambiguity_error.1 ambNetworksExample "org1" "MAIN OFFICE" (by decide) (by decide)
      (by decide)).1, by decide⟩

/-! ## Theorems: status classification -/

/-- C10: `"alerting"` is a member of the down-status set, so every status
classified alerting is classified down, and for any device list the
alerting filter selects a subset of the down filter. -/
theorem alerting_implies_down :
    (∀ status : String, isDeviceAlerting status = true → isDeviceDown status = true) ∧
    (∀ (devices : List Device) (d : Device),
      d ∈ devices.filter (fun device => isDeviceAlerting device.status) →
        d ∈ devices.filter fun device => isDeviceDown device.status) := by
  have h1 : ∀ status : String, isDeviceAlerting status = true → isDeviceDown status = true := by
    intro status h
    simp only [isDeviceAlerting, alertingStatuses, List.any_cons, List.any_nil,
      Bool.or_false] at h
    simp [isDeviceDown, downStatuses, h]
  refine ⟨h1, fun devices d hmem => ?_⟩
  simp only [List.mem_filter] at hmem ⊢
  exact ⟨hmem.1, h1 _ hmem.2⟩

/-- Witness for C10: a device reporting status "Alerting" is classified both
alerting and down. -/
theorem alerting_implies_down_witness :
    isDeviceAlerting "Alerting" = true ∧ isDeviceDown "Alerting" = true :=
  ⟨by decide, alerting_implies_down.1 "Alerting" (by decide)⟩

/-! ## Theorems: route aggregation -/

/-- The VPN sub-fetch never returns an error. -/
theorem getNetworkVPNRoutes_eq (env : NetworkEnv) :
    getNetworkVPNRoutes env = .ok (okOrEmpty (getNetworkVPNRoutes env)) := by
  rw [getNetworkVPNRoutes]
  cases h : env.vpnResp <;> simp [okOrEmpty, getNetworkVPNRoutes, h]

/-- The VLAN sub-fetch never returns an error. -/
theorem getNetworkVLANRoutes_eq (env : NetworkEnv) :
    getNetworkVLANRoutes env = .ok (okOrEmpty (getNetworkVLANRoutes env)) := by
  rw [getNetworkVLANRoutes]
  cases h : env.vlansResp <;> simp [okOrEmpty, getNetworkVLANRoutes, h]

/-- The switch sub-fetch never fails and is the concatenation of the
layer-3 interface routes and the switch static routes, in that order. -/
theorem getNetworkSwitchRoutes_eq (env : NetworkEnv) :
    getNetworkSwitchRoutes env =
      .ok (okOrEmpty (getNetworkSwitchInterfaces env) ++
        okOrEmpty (getNetworkSwitchStaticRoutes env)) := by
  rw [getNetworkSwitchRoutes]
  cases h1 : env.switchIfacesResp <;> cases h2 : env.switchStaticResp <;>
    simp [getNetworkSwitchInterfaces, getNetworkSwitchStaticRoutes, okOrEmpty, h1, h2]

/-- The switch-stack sub-fetch never returns an error. -/
theorem getNetworkSwitchStackRoutes_eq (env : NetworkEnv) :
    getNetworkSwitchStackRoutes env = .ok (okOrEmpty (getNetworkSwitchStackRoutes env)) := by
  rw [getNetworkSwitchStackRoutes]
  cases h : env.stacksResp <;>
    simp [okOrEmpty, getNetworkSwitchStackRoutes, getNetworkSwitchStacks, h]

/-- `getNetworkRoutes` always succeeds with the ordered six-source
concatenation `networkRoutesList`. -/
theorem getNetworkRoutes_eq (env : NetworkEnv) :
    getNetworkRoutes env = .ok (networkRoutesList env) := by
  simp only [getNetworkRoutes, networkRoutesList]
  rw [getNetworkVPNRoutes_eq env, getNetworkVLANRoutes_eq env, getNetworkSwitchRoutes_eq env,
    getNetworkSwitchStackRoutes_eq env]
  cases h : getNetworkStaticRoutes env with
  | error e => simp [okOrEmpty, h, List.append_assoc]
  | ok rs => simp [okOrEmpty, h, List.append_assoc]

/-- The appliance static route of the route-aggregation example. -/
def exampleStaticRoute : Route :=
  { id := "sr-1", name := "Office LAN", subnet := "10.0.0.0/24",
    gatewayIP := "10.0.0.1", enabled := true }

/-- The VLAN of the route-aggregation example. -/
def exampleVlan : Vlan :=
  { id := 10, name := "Data", applianceIP := "10.2.0.1", subnet := "10.2.0.0/24" }

/-- The concrete network of the specification's route-aggregation example:
one appliance static route, one VPN subnet with `useVpn`, one VLAN with a
non-empty subnet, and no switch or stack data. -/
def routesExampleEnv : NetworkEnv where
  staticRoutesResp := .ok [exampleStaticRoute]
  vpnResp := .ok { mode := "hub", subnets := [{ localSubnet := "10.1.0.0/24", useVpn := true }] }
  vlansResp := .ok [exampleVlan]
  switchIfacesResp := .ok []
  switchStaticResp := .ok []
  stacksResp := .ok []
  stackIfacesResp := fun _ => .ok []
  stackStaticResp := fun _ => .ok []
  stackDhcpResp := fun _ => .ok {}

/-- C6: `getNetworkRoutes` returns the concatenation of the non-failed
sub-fetches in the fixed order appliance static routes, VPN subnets with
`useVpn`, VLANs with a non-empty subnet, switch layer-3 interfaces, switch
static routes, switch-stack routes; on the example network with one entry
in each of the first three sources and nothing else it returns exactly
those 3 routes in that order. -/
theorem getNetworkRoutes_union_order :
    (∀ env : NetworkEnv, getNetworkRoutes env = .ok (networkRoutesList env)) ∧
    getNetworkRoutes routesExampleEnv =
      .ok [{ id := "sr-1", name := "Office LAN", subnet := "10.0.0.0/24",
             gatewayIP := "10.0.0.1", enabled := true },
           { id := "vpn-0", name := "VPN Route 1", subnet := "10.1.0.0/24", enabled := true },
           { id := "vlan-10", name := "VLAN 10 - Data", subnet := "10.2.0.0/24",
             gatewayIP := "10.2.0.1", enabled := true }] :=
  ⟨getNetworkRoutes_eq, rfl⟩

/-- C9: the per-network route fetch can never fail — every sub-fetch
converts its own failure into an empty contribution — so
`GetAllNetworkRoutes` never takes its warn-and-include-empty branch: every
network appears with exactly its `networkRoutesList` routes. -/
theorem getNetworkRoutes_never_fails :
    (∀ env : NetworkEnv, ∃ routes, getNetworkRoutes env = .ok routes) ∧
    (∀ (oe : OrgEnv) (networks : List Network), oe.networksResp = .ok networks →
      GetAllNetworkRoutes oe = .ok (networks.map fun network =>
        { network := network, routes := networkRoutesList (oe.netEnv network.id) })) := by
  constructor
  · intro env
    exact ⟨networkRoutesList env, getNetworkRoutes_eq env⟩
  · intro oe networks h
    simp only [GetAllNetworkRoutes, h, getNetworkRoutes_eq]

/-- The one-network organization used to witness C9. -/
def orgEnvExample : OrgEnv where
  networksResp := .ok [{ id := "N1", name := "Site" }]
  netEnv := fun _ => routesExampleEnv

/-- Witness for C9: a concrete organization whose single network's routes
come back without the empty-fallback branch firing. -/
theorem getNetworkRoutes_never_fails_witness :
    GetAllNetworkRoutes orgEnvExample =
      .ok [{ network := { id := "N1", name := "Site" },
             routes := networkRoutesList (orgEnvExample.netEnv "N1") }] :=
  getNetworkRoutes_never_fails.2 orgEnvExample [{ id := "N1", name := "Site" }] rfl

/-! ## Theorems: license attribution -/

/-- C8: in the per-network license view, each network of the listing gets
exactly the organization-level licenses whose `networkId` equals the
network's ID or is empty — a pure filter over the single org-level fetch
(the same fetched list is filtered for every network; no per-network
fetch result enters the computation). -/
theorem license_network_attribution (networks : List Network) (licenses : List License) :
    ∃ entries, GetAllNetworkLicenses (.ok networks) (.ok licenses) = .ok entries ∧
      entries.map NetworkLicenses.network = networks ∧
      ∀ e ∈ entries, ∀ l : License,
        l ∈ e.licenses ↔ l ∈ licenses ∧ (l.networkID = e.network.id ∨ l.networkID = "") := by
  refine ⟨_, rfl, ?_, ?_⟩
  · rw [List.map_map]
    have h : ∀ network ∈ networks,
        (NetworkLicenses.network ∘ fun network : Network =>
          ({ network := network,
             licenses := licenses.filter fun license =>
               license.networkID == network.id || license.networkID == "" } :
            NetworkLicenses)) network = id network :=
      fun _ _ => rfl
    rw [List.map_congr_left h, List.map_id]
  · intro e he l
    simp only [List.mem_map] at he
    obtain ⟨network, hn, rfl⟩ := he
    simp [List.mem_filter]

/-- Witness for C8: two networks and two licenses — one org-wide (empty
`networkId`), one pinned to the first network. -/
theorem license_network_attribution_witness :
    ∃ entries,
      GetAllNetworkLicenses (.ok [{ id := "N1", name := "A" }, { id := "N2", name := "B" }])
        (.ok [{ networkID := "" }, { networkID := "N1" }]) = .ok entries ∧
      entries.map NetworkLicenses.network =
        [{ id := "N1", name := "A" }, { id := "N2", name := "B" }] ∧
      ∀ e ∈ entries, ∀ l : License,
        l ∈ e.licenses ↔ l ∈ [{ networkID := "" }, { networkID := "N1" }] ∧
          (l.networkID = e.network.id ∨ l.networkID = "") :=
  license_network_attribution [{ id := "N1", name := "A" }, { id := "N2", name := "B" }]
    [{ networkID := "" }, { networkID := "N1" }]

/-! ## Theorems: consolidated aggregation -/

/-- A network environment whose every endpoint answers empty. -/
def emptyNetworkEnv : NetworkEnv where
  staticRoutesResp := .ok []
  vpnResp := .ok {}
  vlansResp := .ok []
  switchIfacesResp := .ok []
  switchStaticResp := .ok []
  stacksResp := .ok []
  stackIfacesResp := fun _ => .ok []
  stackStaticResp := fun _ => .ok []
  stackDhcpResp := fun _ => .ok {}

/-- An API environment holding exactly one organization with one org-level
license and nothing else. -/
def licenseEnvWithOrg (org : Organization) : ApiEnv where
  orgsResp := .ok [org]
  orgEnv := fun _ => { networksResp := .ok [], netEnv := fun _ => emptyNetworkEnv }
  licensesResp := fun _ => .ok [{ licenseKey := "KEY-1" }]
  alertingResp := fun _ _ => .ok []

/-- C7 counterexample: consolidated license records are not annotated with
the organization ID (nor with any network field): two environments whose
single organizations differ only in ID produce identical, non-empty
consolidated license output, so no emitted record carries all four scope
fields. -/
theorem consolidated_scope_counterexample :
    ({ id := "O1", name := "Acme" } : Organization).id ≠
      ({ id := "O2", name := "Acme" } : Organization).id ∧
    infoAllNetworkLicensesConsolidated (licenseEnvWithOrg { id := "O1", name := "Acme" }) =
      infoAllNetworkLicensesConsolidated (licenseEnvWithOrg { id := "O2", name := "Acme" }) ∧
    infoAllNetworkLicensesConsolidated (licenseEnvWithOrg { id := "O1", name := "Acme" }) =
      .ok [{ license := { licenseKey := "KEY-1" }, organization := "Acme" }] :=
  ⟨by decide, rfl, rfl⟩

/-- C7 (amended): in consolidated (`--all`) aggregation every emitted
record is annotated from the listing calls with — for routes — the network
ID, the network name and the organization name; for licenses, the
organization name only; for alerting devices, the network name and the
organization name. -/
theorem consolidated_scope_annotation :
    (∀ (env : ApiEnv) (orgs : List Organization), env.orgsResp = .ok orgs →
      ∃ records, infoAllNetworkRoutesConsolidated env = .ok records ∧
        ∀ r ∈ records, ∃ org ∈ orgs, ∃ nrs, ∃ nr ∈ nrs,
          GetAllNetworkRoutes (env.orgEnv org.id) = .ok nrs ∧
          r.networkID = nr.network.id ∧ r.networkName = nr.network.name ∧
          r.organization = org.name ∧ r.route ∈ nr.routes) ∧
    (∀ (env : ApiEnv) (orgs : List Organization), env.orgsResp = .ok orgs →
      ∃ records, infoAllNetworkLicensesConsolidated env = .ok records ∧
        ∀ lw ∈ records, ∃ org ∈ orgs, ∃ ls,
          env.licensesResp org.id = .ok ls ∧ lw.license ∈ ls ∧ lw.organization = org.name) ∧
    (∀ (env : ApiEnv) (orgs : List Organization), env.orgsResp = .ok orgs →
      ∃ records, infoAllNetworkAlertingDevicesConsolidated env = .ok records ∧
        ∀ dw ∈ records, ∃ org ∈ orgs, ∃ networks, ∃ network ∈ networks,
          (env.orgEnv org.id).networksResp = .ok networks ∧
          dw.networkName = network.name ∧ dw.organization = org.name) := by
  refine ⟨?_, ?_, ?_⟩
  · intro env orgs h
    refine ⟨_, by rw [infoAllNetworkRoutesConsolidated, h], ?_⟩
    intro r hr
    rw [List.mem_flatten] at hr
    obtain ⟨block, hblock, hrblock⟩ := hr
    rw [List.mem_map] at hblock
    obtain ⟨org, horg, rfl⟩ := hblock
    cases hg : GetAllNetworkRoutes (env.orgEnv org.id) with
    | error e =>
      simp only [hg] at hrblock
      exact absurd hrblock (List.not_mem_nil r)
    | ok nrs =>
      simp only [hg, List.mem_flatten, List.mem_map] at hrblock
      obtain ⟨inner, ⟨nr, hnr, rfl⟩, hrinner⟩ := hrblock
      rw [List.mem_map] at hrinner
      obtain ⟨route, hroute, rfl⟩ := hrinner
      exact ⟨org, horg, nrs, nr, hnr, hg, rfl, rfl, rfl, hroute⟩
  · intro env orgs h
    refine ⟨_, by rw [infoAllNetworkLicensesConsolidated, h], ?_⟩
    intro lw hlw
    rw [List.mem_flatten] at hlw
    obtain ⟨block, hblock, hlwblock⟩ := hlw
    rw [List.mem_map] at hblock
    obtain ⟨org, horg, rfl⟩ := hblock
    cases hg : env.licensesResp org.id with
    | error e =>
      simp only [hg] at hlwblock
      exact absurd hlwblock (List.not_mem_nil lw)
    | ok ls =>
      simp only [hg, List.mem_map] at hlwblock
      obtain ⟨license, hlic, rfl⟩ := hlwblock
      exact ⟨org, horg, ls, hg, hlic, rfl⟩
  · intro env orgs h
    refine ⟨_, by rw [infoAllNetworkAlertingDevicesConsolidated, h], ?_⟩
    intro dw hdw
    rw [List.mem_flatten] at hdw
    obtain ⟨block, hblock, hdwblock⟩ := hdw
    rw [List.mem_map] at hblock
    obtain ⟨org, horg, rfl⟩ := hblock
    cases hg : (env.orgEnv org.id).networksResp with
    | error e =>
      simp only [hg] at hdwblock
      exact absurd hdwblock (List.not_mem_nil dw)
    | ok networks =>
      simp only [hg, List.mem_flatten, List.mem_map] at hdwblock
      obtain ⟨inner, ⟨network, hnet, rfl⟩, hdwinner⟩ := hdwblock
      cases ha : env.alertingResp org.id network.id with
      | error e =>
        simp only [ha] at hdwinner
        exact absurd hdwinner (List.not_mem_nil dw)
      | ok devices =>
        simp only [ha, List.mem_map] at hdwinner
        obtain ⟨device, hdev, rfl⟩ := hdwinner
        exact ⟨org, horg, networks, network, hnet, hg, rfl, rfl⟩

/-- Witness for C7 (amended): the license part instantiated on a concrete
one-organization environment. -/
theorem consolidated_scope_annotation_witness :
    ∃ records,
      infoAllNetworkLicensesConsolidated (licenseEnvWithOrg { id := "O1", name := "Acme" }) =
        .ok records ∧
      ∀ lw ∈ records, ∃ org ∈ [({ id := "O1", name := "Acme" } : Organization)], ∃ ls,
        (licenseEnvWithOrg { id := "O1", name := "Acme" }).licensesResp org.id = .ok ls ∧
        lw.license ∈ ls ∧ lw.organization = org.name :=
  consolidated_scope_annotation.2.1 (licenseEnvWithOrg { id := "O1", name := "Acme" })
    [{ id := "O1", name := "Acme" }] rfl

end MerakiInfo
